import Mathlib

/-!
Verification of the VeriFi fraud-detection core (Backend of Venkatbandi002/VeriFi).

The Python sources `fraud_detection.py`, `image_forensics.py` and the scoring
section of `main.py` are shallowly embedded below.  External effects (PIL image
decoding, pypdf metadata parsing, pdf2image rasterization, perceptual hashing)
are represented by explicit fields of the input structures recording what the
corresponding library call would have produced, together with flags recording
whether the call raises; the pure logic (regex scans, ordered checks, scoring
fusion, confidence formulas) is translated directly.  Floating-point constants
of the source are represented exactly as rationals.
-/

namespace VeriFi

/-! ## String scanning helpers (semantics of the regex / substring operations) -/

/-- Word character in the sense of the regex `\w` (ASCII fragment). -/
def isWordChar (c : Char) : Bool := c.isAlphanum || c == '_'

/-- A `\b` word boundary holds before a word character when the previous
character (if any) is not a word character. -/
def wordBoundary : Option Char → Bool
  | none => true
  | some c => !isWordChar c

/-- A `\b` word boundary holds after a word character when the following text
is empty or starts with a non-word character. -/
def afterBoundary : List Char → Bool
  | [] => true
  | c :: _ => !isWordChar c

/-- Whether the second list is a prefix of the first. -/
def startsWithL : List Char → List Char → Bool
  | _, [] => true
  | [], _ :: _ => false
  | c :: cs, p :: ps => c == p && startsWithL cs ps

/-- Whether the pattern (second argument) occurs as a contiguous substring. -/
def containsSub : List Char → List Char → Bool
  | [], p => startsWithL [] p
  | c :: ts, p => startsWithL (c :: ts) p || containsSub ts p

/-- Python's `pat in text` on strings. -/
def strContains (text pat : String) : Bool := containsSub text.toList pat.toList

/-- ASCII lowering of one character (the fragment of Python `str.lower`
exercised by the source's tool markers and filename suffixes). -/
def lowerChar (c : Char) : Char :=
  if 65 ≤ c.toNat ∧ c.toNat ≤ 90 then Char.ofNat (c.toNat + 32) else c

/-- ASCII raising of one character (the fragment of Python `str.upper`
exercised by the PAN pattern). -/
def upperChar (c : Char) : Char :=
  if 97 ≤ c.toNat ∧ c.toNat ≤ 122 then Char.ofNat (c.toNat - 32) else c

/-- Python `s.lower()` (ASCII fragment). -/
def lowerStr (s : String) : String := ⟨s.data.map lowerChar⟩

/-- Python `s.upper()` (ASCII fragment). -/
def upperStr (s : String) : String := ⟨s.data.map upperChar⟩

/-- Python `s.strip()`: drop leading and trailing whitespace. -/
def trimStr (s : String) : String :=
  ⟨((s.data.dropWhile Char.isWhitespace).reverse.dropWhile Char.isWhitespace).reverse⟩

/-- Python `s.endswith(sfx)`. -/
def endsWithStr (s sfx : String) : Bool :=
  startsWithL s.data.reverse sfx.data.reverse

/-! ## image_forensics.py — tamper detection -/

/-- Abstraction of one byte string handed to the forensic routines.  The
fields record what the image-processing library calls would yield on these
bytes: `rawData` is the byte stream itself (as matchable text), `imageOk`
whether `Image.open` succeeds, `infoValues` the string forms of the
string/bytes-valued entries of the decoded image's `info` dictionary in
iteration order, `exifPresent` whether `info` has an `exif` entry, `exifOk`
whether `piexif.load` plus the tag decode succeed, `exifSoftware` the decoded
EXIF Software tag, `elaOk` whether the decode/re-save step of error-level
analysis succeeds, `elaMaxDiff` the maximal single-channel extremum of the ELA
difference image, and `phashVal` the perceptual hash of the decoded image. -/
structure FileBytes where
  rawData : String
  imageOk : Bool
  infoValues : List String
  exifPresent : Bool
  exifOk : Bool
  exifSoftware : String
  elaOk : Bool
  elaMaxDiff : ℕ
  phashVal : String
deriving Repr, DecidableEq

/-- The fixed editing-tool marker list of `detect_tampering`. -/
def suspicious_list : List String :=
  ["canva", "photoshop", "gimp", "adobe", "illustrator", "framer"]

/-- Whether one `info`-dictionary value contains a suspicious tool marker
(after lowering, as the source does with `str(value).lower()`). -/
def infoHit (v : String) : Bool :=
  suspicious_list.any (fun t => strContains (lowerStr v) t)

/-- Message built for an `info`-dictionary hit. -/
def infoMsg (v : String) : String :=
  "Tampering Signature: Created/Edited with " ++ trimStr (lowerStr v)

/-- First suspicious tool whose byte encoding occurs in the lowered raw data. -/
def rawHit (b : FileBytes) : Option String :=
  suspicious_list.find? (fun t => strContains (lowerStr b.rawData) t)

/-- Message built for a raw byte-stream hit. -/
def rawMsg (t : String) : String :=
  "Tampering Signature: \x27" ++ t ++ "\x27 marker found in raw file data"

/-- Message built for an EXIF Software hit. -/
def exifMsg (sw : String) : String :=
  "Metadata Fraud: Software signature \x27" ++ trimStr sw ++ "\x27 detected"

/-- Confidence formula of `detect_ela`:
`min(0.96, 0.70 + (max_diff / 255) * 0.26)`. -/
def elaConfidence (d : ℕ) : ℚ :=
  min (96/100 : ℚ) (70/100 + ((d : ℚ) / 255) * (26/100))

/-- Message of an ELA detection. -/
def elaMsg : String := "Visual Tampering: Pixel-level inconsistencies detected (ELA)"

/-- The ELA fallback `detect_ela` of image_forensics.py: if the decode and
re-save succeed and the maximal difference strictly exceeds the threshold 30,
a pixel-tamper signal is returned; any failure yields no signal. -/
def detect_ela (b : FileBytes) : Option (String × ℚ) :=
  if b.elaOk then
    if 30 < b.elaMaxDiff then some (elaMsg, elaConfidence b.elaMaxDiff) else none
  else none

/-- The single `try` block of `detect_tampering` covering `Image.open` and
checks 1–3 (deep info scan at 0.93, raw binary scan at 0.87, EXIF Software
scan at 0.90).  If `Image.open` raises (`imageOk = false`) or the EXIF parse
raises (`exifOk = false`), the exception is swallowed and the result is
`none`, after which the caller proceeds to ELA. -/
def tamperChecks123 (b : FileBytes) : Option (String × ℚ) :=
  if b.imageOk then
    match b.infoValues.find? infoHit with
    | some v => some (infoMsg v, 93/100)
    | none =>
      match rawHit b with
      | some t => some (rawMsg t, 87/100)
      | none =>
        if b.exifPresent then
          if b.exifOk then
            if suspicious_list.any
                (fun t => strContains (lowerStr b.exifSoftware) t) then
              some (exifMsg (lowerStr b.exifSoftware), 90/100)
            else none
          else none
        else none
  else none

/-- Body of `detect_tampering` after PDF preprocessing: checks 1–3, then the
ELA fallback whenever they produced nothing (by match, exception, or
absence). -/
def tamperOnBytes (b : FileBytes) : Option (String × ℚ) :=
  match tamperChecks123 b with
  | some r => some r
  | none => detect_ela b

/-- A full input to the forensic scanner: the uploaded bytes, the filename,
and what `pdf2image.convert_from_bytes` would produce on these bytes
(`none` when the conversion raises). -/
structure TamperInput where
  filename : String
  bytes : FileBytes
  raster : Option FileBytes
deriving Repr, DecidableEq

/-- Test `filename.lower().endswith(".pdf")` of the source. -/
def isPdfName (s : String) : Bool := endsWithStr (lowerStr s) ".pdf"

/-- The function `detect_tampering(file_bytes, filename)` of
image_forensics.py.  `pdf2imageAvailable` models the import-time flag
`PDF2IMAGE_AVAILABLE`. -/
def detect_tampering (inp : TamperInput) (pdf2imageAvailable : Bool) :
    Option (String × ℚ) :=
  if isPdfName inp.filename && pdf2imageAvailable then
    match inp.raster with
    | none => none
    | some b => tamperOnBytes b
  else tamperOnBytes inp.bytes

/-- The function `get_image_phash(file_bytes)` of image_forensics.py: the
perceptual hash of the decoded image, or the empty string when decoding
raises. -/
def get_image_phash (b : FileBytes) : String :=
  if b.imageOk then b.phashVal else ""

/-! ## fraud_detection.py — PII detection -/

/-- ASCII uppercase letter, the character class `[A-Z]`. -/
def isUpperAZ (c : Char) : Bool := 65 ≤ c.toNat && c.toNat ≤ 90

/-- Match of the PAN body `[A-Z]{5}[0-9]{4}[A-Z]{1}\b` at the head of the
list. -/
def panAt : List Char → Bool
  | a :: b :: c :: d :: e :: f :: g :: h :: i :: j :: rest =>
    isUpperAZ a && isUpperAZ b && isUpperAZ c && isUpperAZ d && isUpperAZ e &&
    f.isDigit && g.isDigit && h.isDigit && i.isDigit && isUpperAZ j &&
    afterBoundary rest
  | _ => false

/-- Scan for `\b[A-Z]{5}[0-9]{4}[A-Z]{1}\b` anywhere, tracking the previous
character for the leading word boundary. -/
def hasPanAux : Option Char → List Char → Bool
  | _, [] => false
  | prev, c :: rest => (wordBoundary prev && panAt (c :: rest)) || hasPanAux (some c) rest

/-- Whether `re.findall` of the PAN pattern on the text is non-empty. -/
def hasPAN (s : String) : Bool := hasPanAux none s.toList

/-- Consume exactly four digits, returning the remainder. -/
def digit4 : List Char → Option (List Char)
  | a :: b :: c :: d :: rest =>
    if a.isDigit && b.isDigit && c.isDigit && d.isDigit then some rest else none
  | _ => none

/-- The possible remainders of the optional separator `[\s-]?` (both the
consuming and the empty alternative when a separator is present). -/
def sepChoices : List Char → List (List Char)
  | [] => [[]]
  | c :: rest => if c.isWhitespace || c == '-' then [rest, c :: rest] else [c :: rest]

/-- Match of the Aadhaar body `\d{4}[\s-]?\d{4}[\s-]?\d{4}\b` at the head of
the list (existential over the separator alternatives, as regex backtracking
gives). -/
def aadAt (l : List Char) : Bool :=
  match digit4 l with
  | none => false
  | some r1 =>
    (sepChoices r1).any fun r2 =>
      match digit4 r2 with
      | none => false
      | some r3 =>
        (sepChoices r3).any fun r4 =>
          match digit4 r4 with
          | none => false
          | some r5 => afterBoundary r5

/-- Scan for the Aadhaar pattern anywhere, tracking the previous character
for the leading word boundary. -/
def hasAadhaarAux : Option Char → List Char → Bool
  | _, [] => false
  | prev, c :: rest => (wordBoundary prev && aadAt (c :: rest)) || hasAadhaarAux (some c) rest

/-- Whether `re.findall` of the Aadhaar pattern on the text is non-empty. -/
def hasAadhaar (s : String) : Bool := hasAadhaarAux none s.toList

/-- The function `detect_pii(text)` of fraud_detection.py: the list of PII
kinds found and the confidence derived from how many kinds were found. -/
def detect_pii (text : String) : List String × ℚ :=
  if text.isEmpty then ([], 0)
  else
    let detected :=
      (if hasPAN (upperStr text) then ["PAN_DETECTED"] else []) ++
      (if hasAadhaar text then ["AADHAAR_DETECTED"] else [])
    (detected,
      if detected.length = 1 then 75/100
      else if 1 < detected.length then 95/100 else 0)

/-! ## fraud_detection.py — metadata forensics -/

/-- Value of the leading four-digit group if the list starts with four
digits. -/
def year4At : List Char → Option ℕ
  | a :: b :: c :: d :: _ =>
    if a.isDigit && b.isDigit && c.isDigit && d.isDigit then
      some (1000 * (a.toNat - 48) + 100 * (b.toNat - 48) + 10 * (c.toNat - 48) + (d.toNat - 48))
    else none
  | _ => none

/-- Leftmost match of `re.search(r'(\d{4})', s)`: the first four consecutive
digits. -/
def firstYear4 : List Char → Option ℕ
  | [] => none
  | c :: rest =>
    match year4At (c :: rest) with
    | some y => some y
    | none => firstYear4 rest

/-- Non-overlapping left-to-right matches of `\b(20\d{2})\b`, tracking the
previous character for the leading word boundary. -/
def textYearsAux : ℕ → Option Char → List Char → List ℕ
  | 0, _, _ => []
  | _ + 1, _, [] => []
  | _ + 1, _, [_] => []
  | _ + 1, _, [_, _] => []
  | _ + 1, _, [_, _, _] => []
  | fuel + 1, prev, c1 :: c2 :: c3 :: c4 :: rest =>
    if wordBoundary prev && c1 == '2' && c2 == '0' && c3.isDigit && c4.isDigit
        && afterBoundary rest then
      (2000 + 10 * (c3.toNat - 48) + (c4.toNat - 48)) :: textYearsAux fuel (some c4) rest
    else textYearsAux fuel (some c1) (c2 :: c3 :: c4 :: rest)

/-- All visible years `re.findall(r'\b(20\d{2})\b', extracted_text)`.  The
fuel argument of the scanner is its list length, which bounds the number of
scanning steps, so the scan always runs to the end of the text. -/
def textYears (s : String) : List ℕ := textYearsAux s.toList.length none s.toList

/-- Python `max` over a list of naturals (used only on non-empty lists). -/
def maxList (l : List ℕ) : ℕ := l.foldl max 0

/-- Document metadata as pypdf exposes it: the string forms of the
`/CreationDate` and `/Creator` entries (empty when absent). -/
structure PdfMeta where
  creationDate : String
  creator : String
deriving Repr, DecidableEq

/-- Input to the metadata analyzer: whether `PdfReader` succeeds on the bytes
and, if so, the metadata object (`none` models a falsy `reader.metadata`). -/
structure MetaInput where
  parseOk : Bool
  meta : Option PdfMeta
deriving Repr, DecidableEq

/-- Mismatch message of `analyze_metadata`. -/
def mismatchMsg : String := "METADATA_MISMATCH: Hidden year is later than document year"

/-- Suspicious-creator message of `analyze_metadata`. -/
def creatorMsg : String := "SUSPICIOUS_CREATOR_TOOL: Canva"

/-- The creator check of `analyze_metadata`: a Canva marker in the lowered
`/Creator` string yields a fixed-confidence signal. -/
def creatorCheck (m : PdfMeta) : Option (String × ℚ) :=
  if strContains (lowerStr m.creator) "canva" then some (creatorMsg, 85/100)
  else none

/-- The function `analyze_metadata(file_bytes, extracted_text)` of
fraud_detection.py. -/
def analyze_metadata (inp : MetaInput) (extracted_text : String) :
    Option (String × ℚ) :=
  if inp.parseOk then
    match inp.meta with
    | none => none
    | some m =>
      match firstYear4 m.creationDate.toList with
      | some pdf_year =>
        let text_years := textYears extracted_text
        if text_years ≠ [] ∧ maxList text_years < pdf_year then
          some (mismatchMsg,
            if 4 ≤ pdf_year - maxList text_years then 92/100 else 78/100)
        else creatorCheck m
      | none => creatorCheck m
  else none

/-! ## main.py — score aggregation (`upload_scan`, scoring section) -/

/-- One recorded anomaly of the scan result. -/
structure AnomalyItem where
  type : String
  description : String
  confidence : ℚ
deriving Repr, DecidableEq

/-- The verdict fields produced by the scoring section of `upload_scan`. -/
structure ScanVerdict where
  fraud_score : ℕ
  severity : String
  anomalies : List AnomalyItem
  confidence : ℚ
deriving Repr, DecidableEq

/-- The severity expression of `upload_scan`:
`"CRITICAL" if s >= 70 else "WARNING" if s >= 30 else "SAFE"`. -/
def severityOf (s : ℕ) : String :=
  if 70 ≤ s then "CRITICAL" else if 30 ≤ s then "WARNING" else "SAFE"

/-- The overall-confidence computation of `upload_scan`: the mean of the
anomaly confidences, or 0.0 when no anomaly was recorded. -/
def overallConfidence (l : List AnomalyItem) : ℚ :=
  if l.isEmpty then 0 else (l.map fun a => a.confidence).sum / (l.length : ℚ)

/-- The cumulative scoring of `upload_scan` (main.py lines 151–198) as a
function of the detector outputs: tamper result, metadata result, duplicate
lookup result, and PII result. -/
def aggregate (tamper meta : Option (String × ℚ)) (is_dup : Bool)
    (dup_score : ℚ) (pii_found : List String) (pii_conf : ℚ) : ScanVerdict :=
  let s0 : ℕ := 0
  let a0 : List AnomalyItem := []
  let s1 := match tamper with | some _ => max s0 90 | none => s0
  let a1 := match tamper with
    | some (msg, c) => a0 ++ [⟨"Forensic Tampering", msg, c⟩]
    | none => a0
  let s2 := match meta with | some _ => max s1 85 | none => s1
  let a2 := match meta with
    | some (msg, c) => a1 ++ [⟨"Metadata Fraud", msg, c⟩]
    | none => a1
  let s3 := if is_dup then 100 else s2
  let a3 := if is_dup then
      a2 ++ [⟨"Duplicate Discovery", "Visual or text match found.", dup_score⟩]
    else a2
  let a4 := if pii_found.isEmpty then a3
    else a3 ++ [⟨"PII Detected", "Contains: " ++ toString pii_found, pii_conf⟩]
  let s4 := if pii_found.isEmpty then s3 else if s3 < 30 then s3 + 20 else s3
  { fraud_score := min 100 s4
    severity := severityOf s4
    anomalies := a4
    confidence := overallConfidence a4 }

/-! ## Specification-side definitions, for comparison with the source -/

/-- Scoring rules exactly as the specification words them: tamper floor 90,
metadata floor 85, duplicate override 100, PII adds 20 only below 30, final
clamp to `[0, 100]`.  Stated over the presence booleans of the four signal
sources; compared against `aggregate`. -/
def score_spec (tamper meta dup pii : Bool) : ℕ :=
  let s1 := if tamper then max 0 90 else 0
  let s2 := if meta then max s1 85 else s1
  let s3 := if dup then 100 else s2
  let s4 := if pii && decide (s3 < 30) then s3 + 20 else s3
  min 100 s4

/-- Modelled from the claim wording, not from the source: every tamper check
is an independent stage and an exception in one stage falls through to the
next stage in order (so the raw byte-stream scan still runs when image
decoding failed).  Used only to exhibit where the source behaves
differently. -/
def tamperStages_asSpecified (b : FileBytes) : Option (String × ℚ) :=
  match (if b.imageOk then
      match b.infoValues.find? infoHit with
      | some v => some (infoMsg v, (93/100 : ℚ))
      | none => none
    else none) with
  | some r => some r
  | none =>
    match rawHit b with
    | some t => some (rawMsg t, 87/100)
    | none =>
      match (if b.imageOk && b.exifPresent && b.exifOk then
          (if suspicious_list.any
              (fun t => strContains (lowerStr b.exifSoftware) t) then
            some (exifMsg (lowerStr b.exifSoftware), (90/100 : ℚ))
          else none)
        else none) with
      | some r => some r
      | none => detect_ela b

/-- Modelled from the claim wording, not from the source: a document-container
filename with unavailable or failing rasterization returns no signal, and
otherwise the independent stages of `tamperStages_asSpecified` run. -/
def detect_tampering_asSpecified (inp : TamperInput) (avail : Bool) :
    Option (String × ℚ) :=
  if isPdfName inp.filename then
    if avail then
      match inp.raster with
      | none => none
      | some b => tamperStages_asSpecified b
    else none
  else tamperStages_asSpecified inp.bytes

/-- Modelled from the claim wording, not from the source: the fingerprint
operation rasterizes document-container inputs first and hashes the resulting
raster image; decoding failure yields the empty string.  Used only to exhibit
where the source differs. -/
def get_image_phash_asSpecified (inp : TamperInput) : String :=
  if isPdfName inp.filename then
    match inp.raster with
    | none => ""
    | some rb => get_image_phash rb
  else get_image_phash inp.bytes

/-! ## Concrete inputs used by witnesses and counterexamples -/

/-- Bytes that do not decode as an image, whose raw stream contains the
`canva` marker, and on which ELA also fails to decode. -/
def cxBytesUndecodable : FileBytes :=
  { rawData := "xxcanvaxx", imageOk := false, infoValues := [],
    exifPresent := false, exifOk := false, exifSoftware := "",
    elaOk := false, elaMaxDiff := 0, phashVal := "" }

/-- A plain image upload carrying `cxBytesUndecodable`. -/
def cxTamperFallthrough : TamperInput := ⟨"scan.jpg", cxBytesUndecodable, none⟩

/-- Raw PDF bytes: not decodable as an image directly. -/
def cxPdfBytes : FileBytes :=
  { rawData := "%PDF-1.7 stream data", imageOk := false, infoValues := [],
    exifPresent := false, exifOk := false, exifSoftware := "",
    elaOk := false, elaMaxDiff := 0, phashVal := "" }

/-- The first-page raster of those PDF bytes: decodable, with a perceptual
hash. -/
def cxRasterBytes : FileBytes :=
  { rawData := "jfif raster data", imageOk := true, infoValues := [],
    exifPresent := false, exifOk := false, exifSoftware := "",
    elaOk := true, elaMaxDiff := 4, phashVal := "8f3c1a2b4d5e6f70" }

/-- A PDF upload whose rasterization succeeds. -/
def cxPdfUpload : TamperInput := ⟨"doc.pdf", cxPdfBytes, some cxRasterBytes⟩

/-- The empty upload: zero bytes decode as nothing. -/
def emptyScanBytes : FileBytes :=
  { rawData := "", imageOk := false, infoValues := [], exifPresent := false,
    exifOk := false, exifSoftware := "", elaOk := false, elaMaxDiff := 0,
    phashVal := "" }

/-- The empty upload handed to the tamper detector. -/
def emptyTamperInput : TamperInput := ⟨"empty.bin", emptyScanBytes, none⟩

/-- The empty upload handed to the metadata analyzer: `PdfReader` raises. -/
def emptyMetaInput : MetaInput := ⟨false, none⟩

/-! ## Claim C1 — aggregator scoring rules -/

/-- Claim C1: the aggregator computes the fraud score by the fixed ordered
rules of the specification (tamper floor 90, metadata floor 85, duplicate
override 100 with the similarity as that signal's confidence, PII +20 only
below 30, clamp to [0, 100]); in particular PII alone scores 20 with SAFE
severity and tamper plus PII scores 90. -/
theorem c1_aggregator_rules (t m : Option (String × ℚ)) (d : Bool) (ds : ℚ)
    (p : List String) (pc : ℚ) :
    (aggregate t m d ds p pc).fraud_score = score_spec t.isSome m.isSome d (!p.isEmpty)
    ∧ (d = true →
        (AnomalyItem.mk "Duplicate Discovery" "Visual or text match found." ds)
          ∈ (aggregate t m d ds p pc).anomalies)
    ∧ (t = none → m = none → d = false → p ≠ [] →
        (aggregate t m d ds p pc).fraud_score = 20
        ∧ (aggregate t m d ds p pc).severity = "SAFE")
    ∧ (t ≠ none → d = false → p ≠ [] →
        (aggregate t m d ds p pc).fraud_score = 90) := by
  rcases t with _ | ⟨tm, tc⟩ <;> rcases m with _ | ⟨mm, mc⟩ <;> cases d <;>
    rcases p with _ | ⟨p0, ps⟩ <;>
      simp [aggregate, score_spec, severityOf]

/-- Witness for C1 at concrete detector outputs: PII alone scores 20 and
tamper plus PII scores 90. -/
theorem c1_aggregator_rules_witness :
    (aggregate none none false 0 ["PAN_DETECTED"] (75/100)).fraud_score = 20
    ∧ (aggregate (some ("sig", 93/100)) none false 0 ["PAN_DETECTED"] (75/100)).fraud_score = 90 :=
  ⟨((c1_aggregator_rules none none false 0 ["PAN_DETECTED"] (75/100)).2.2.1
      rfl rfl rfl (by simp)).1,
    (c1_aggregator_rules (some ("sig", 93/100)) none false 0 ["PAN_DETECTED"] (75/100)).2.2.2
      (by simp) rfl (by simp)⟩

/-! ## Claim C2 — verdict invariants -/

/-- Claim C2: in every verdict the severity is the fixed pure function of the
final score (≥ 70 CRITICAL, ≥ 30 WARNING, else SAFE, with the stated boundary
values), and the overall confidence is the mean of the recorded signal
confidences, or 0 when none were recorded. -/
theorem c2_verdict_invariants (t m : Option (String × ℚ)) (d : Bool) (ds : ℚ)
    (p : List String) (pc : ℚ) :
    (aggregate t m d ds p pc).severity = severityOf (aggregate t m d ds p pc).fraud_score
    ∧ (aggregate t m d ds p pc).confidence
        = overallConfidence (aggregate t m d ds p pc).anomalies
    ∧ severityOf 70 = "CRITICAL" ∧ severityOf 69 = "WARNING"
    ∧ severityOf 30 = "WARNING" ∧ severityOf 29 = "SAFE" := by
  refine ⟨?_, ?_, rfl, rfl, rfl, rfl⟩
  · rcases t with _ | ⟨tm, tc⟩ <;> rcases m with _ | ⟨mm, mc⟩ <;> cases d <;>
      rcases p with _ | ⟨p0, ps⟩ <;> simp [aggregate, severityOf]
  · rcases t with _ | ⟨tm, tc⟩ <;> rcases m with _ | ⟨mm, mc⟩ <;> cases d <;>
      rcases p with _ | ⟨p0, ps⟩ <;> simp [aggregate]

/-! ## Claim C10 — reachable scores -/

/-- Claim C10: every final fraud score lies in the set {0, 20, 85, 90, 100};
consequently the WARNING band is unreachable and the severity is always SAFE
or CRITICAL. -/
theorem c10_score_in_fixed_set (t m : Option (String × ℚ)) (d : Bool) (ds : ℚ)
    (p : List String) (pc : ℚ) :
    ((aggregate t m d ds p pc).fraud_score = 0
      ∨ (aggregate t m d ds p pc).fraud_score = 20
      ∨ (aggregate t m d ds p pc).fraud_score = 85
      ∨ (aggregate t m d ds p pc).fraud_score = 90
      ∨ (aggregate t m d ds p pc).fraud_score = 100)
    ∧ ((aggregate t m d ds p pc).severity = "SAFE"
      ∨ (aggregate t m d ds p pc).severity = "CRITICAL")
    ∧ (aggregate t m d ds p pc).severity ≠ "WARNING" := by
  rcases t with _ | ⟨tm, tc⟩ <;> rcases m with _ | ⟨mm, mc⟩ <;> cases d <;>
    rcases p with _ | ⟨p0, ps⟩ <;> simp [aggregate, severityOf]

/-! ## Claim C3 — tamper check order -/

/-- Claim C3: the tamper detector evaluates its checks in fixed order with
first positive match winning, so an input whose decoded info dictionary holds
an editing-tool substring and whose raw bytes also hold such a marker reports
the embedded-info signal at confidence 0.93, not the raw-binary one at
0.87. -/
theorem c3_info_scan_wins (inp : TamperInput) (avail : Bool)
    (hpdf : (isPdfName inp.filename && avail) = false)
    (himg : inp.bytes.imageOk = true)
    (hinfo : inp.bytes.infoValues.any infoHit = true)
    (hraw : (rawHit inp.bytes).isSome = true) :
    ∃ v, inp.bytes.infoValues.find? infoHit = some v
      ∧ detect_tampering inp avail = some (infoMsg v, 93/100) := by
  have hfind : ∃ v, inp.bytes.infoValues.find? infoHit = some v := by
    rw [← Option.isSome_iff_exists, List.find?_isSome]
    simpa using hinfo
  obtain ⟨v, hv⟩ := hfind
  refine ⟨v, hv, ?_⟩
  simp [detect_tampering, hpdf, tamperOnBytes, tamperChecks123, himg, hv]

/-- A plain image whose info dictionary and raw bytes both carry editing-tool
markers. -/
def cxInfoAndRaw : TamperInput :=
  ⟨"a.jpg",
    { rawData := "photoshop", imageOk := true, infoValues := ["Made With Canva"],
      exifPresent := false, exifOk := false, exifSoftware := "",
      elaOk := false, elaMaxDiff := 0, phashVal := "" },
    none⟩

/-- Witness for C3 at a concrete input carrying both marker kinds. -/
theorem c3_info_scan_wins_witness :
    ∃ v, cxInfoAndRaw.bytes.infoValues.find? infoHit = some v
      ∧ detect_tampering cxInfoAndRaw false = some (infoMsg v, 93/100) :=
  c3_info_scan_wins cxInfoAndRaw false (by decide) (by decide) (by decide) (by decide)

/-! ## Claim C4 — exception handling of the tamper detector -/

/-- Counterexample to claim C4 as stated: on bytes that fail to decode as an
image, whose raw stream nevertheless contains the `canva` marker, the claimed
fall-through to the raw byte-stream scan would report the 0.87 signal, but
the source's single try block jumps to ELA and the detector returns no
signal. -/
theorem c4_counterexample :
    detect_tampering cxTamperFallthrough true = none
    ∧ cxTamperFallthrough.bytes.imageOk = false
    ∧ rawHit cxTamperFallthrough.bytes = some "canva"
    ∧ detect_tampering_asSpecified cxTamperFallthrough true
        = some (rawMsg "canva", 87/100)
    ∧ detect_tampering cxTamperFallthrough true
        ≠ detect_tampering_asSpecified cxTamperFallthrough true := by
  refine ⟨rfl, rfl, rfl, rfl, ?_⟩
  intro h
  rw [show detect_tampering cxTamperFallthrough true = none from rfl,
    show detect_tampering_asSpecified cxTamperFallthrough true
        = some (rawMsg "canva", 87/100) from rfl] at h
  exact Option.noConfusion h

/-- Amended claim C4: an exception anywhere in the decode/info/raw/EXIF block
is swallowed and control falls directly to the ELA fallback (skipping the
remaining signature checks); a document-container filename with available but
failing rasterization returns no signal; with rasterization unavailable the
original bytes are analyzed directly. -/
theorem c4_exception_to_ela (inp : TamperInput) (avail : Bool) :
    ((isPdfName inp.filename && avail) = true → inp.raster = none →
        detect_tampering inp avail = none)
    ∧ (∀ b, (isPdfName inp.filename && avail) = true → inp.raster = some b →
        detect_tampering inp avail = tamperOnBytes b)
    ∧ ((isPdfName inp.filename && avail) = false →
        detect_tampering inp avail = tamperOnBytes inp.bytes)
    ∧ (inp.bytes.imageOk = false → tamperOnBytes inp.bytes = detect_ela inp.bytes)
    ∧ (inp.bytes.imageOk = true → inp.bytes.infoValues.find? infoHit = none →
        rawHit inp.bytes = none → inp.bytes.exifPresent = true →
        inp.bytes.exifOk = false →
        tamperOnBytes inp.bytes = detect_ela inp.bytes) := by
  refine ⟨?_, ?_, ?_, ?_, ?_⟩
  · intro h hr; simp [detect_tampering, h, hr]
  · intro b h hr; simp [detect_tampering, h, hr]
  · intro h; simp [detect_tampering, h]
  · intro h; simp [tamperOnBytes, tamperChecks123, h]
  · intro h1 h2 h3 h4 h5
    simp [tamperOnBytes, tamperChecks123, h1, h2, h3, h4, h5]

/-- Witness for the amended C4: on the undecodable bytes the detector's
result is exactly the ELA fallback result. -/
theorem c4_exception_to_ela_witness :
    tamperOnBytes cxTamperFallthrough.bytes = detect_ela cxTamperFallthrough.bytes :=
  (c4_exception_to_ela cxTamperFallthrough true).2.2.2.1 rfl

/-! ## Claim C5 — metadata year mismatch tiering -/

/-- Document metadata with hidden creation year 2025 and an ordinary
creator. -/
def cxMetaDoc : PdfMeta := ⟨"D:20250101120000", "Microsoft Word"⟩

/-- A successfully parsed metadata input carrying `cxMetaDoc`. -/
def cxMetaInput : MetaInput := ⟨true, some cxMetaDoc⟩

/-- Claim C5: with a hidden creation year and visible years present, a hidden
year above the maximum visible year yields the mismatch signal at 0.92 for a
gap of at least 4 years and at 0.78 for a gap of 1–3 years, short-circuiting
the creator check; a gap of 0 or negative yields no mismatch and falls to the
creator check; a parse failure yields no signal. -/
theorem c5_metadata_tiering (inp : MetaInput) (text : String) :
    (inp.parseOk = false → analyze_metadata inp text = none)
    ∧ (∀ m y, inp.parseOk = true → inp.meta = some m →
        firstYear4 m.creationDate.toList = some y → textYears text ≠ [] →
        ((maxList (textYears text) < y → 4 ≤ y - maxList (textYears text) →
            analyze_metadata inp text = some (mismatchMsg, 92/100))
          ∧ (maxList (textYears text) < y → y - maxList (textYears text) < 4 →
              analyze_metadata inp text = some (mismatchMsg, 78/100))
          ∧ (y ≤ maxList (textYears text) →
              analyze_metadata inp text = creatorCheck m))) := by
  constructor
  · intro h; simp [analyze_metadata, h]
  · intro m y hok hm hy hne
    have hy2 : firstYear4 m.creationDate.data = some y := hy
    refine ⟨?_, ?_, ?_⟩
    · intro hlt hgap
      simp [analyze_metadata, hok, hm, hy2, hne, hlt, hgap]
    · intro hlt hgap
      simp [analyze_metadata, hok, hm, hy2, hne, hlt, not_le.mpr hgap]
    · intro hle
      simp [analyze_metadata, hok, hm, hy2, not_lt.mpr hle]

/-- Witness for C5: hidden year 2025 against visible year 2021 (gap exactly
4) yields the mismatch signal at confidence 0.92. -/
theorem c5_metadata_tiering_witness :
    analyze_metadata cxMetaInput "Invoice dated 2021" = some (mismatchMsg, 92/100) :=
  ((c5_metadata_tiering cxMetaInput "Invoice dated 2021").2 cxMetaDoc 2025
      rfl rfl (by decide) (by decide)).1 (by decide) (by decide)

/-! ## Claim C6 — PII confidence policy -/

/-- Confidence as a function of the number of distinct PII pattern types, as
the specification words it. -/
def piiConfOfTypes (n : ℕ) : ℚ :=
  if n = 1 then 75/100 else if 1 < n then 95/100 else 0

/-- Claim C6: the PII scanner's confidence depends only on the number of
distinct pattern types matched (PAN and Aadhaar existence), one type giving
0.75 and two giving 0.95; empty text and zero types give no signals and
confidence 0. -/
theorem c6_pii_confidence (text : String) :
    (detect_pii text).2 = piiConfOfTypes (detect_pii text).1.length
    ∧ (detect_pii text).1.length
        = (if text.isEmpty then 0
           else (if hasPAN (upperStr text) then 1 else 0)
             + (if hasAadhaar text then 1 else 0))
    ∧ (text.isEmpty = true → detect_pii text = ([], 0))
    ∧ ((detect_pii text).1 = [] → (detect_pii text).2 = 0) := by
  by_cases h : text.isEmpty <;>
    by_cases h1 : hasPAN (upperStr text) <;>
      by_cases h2 : hasAadhaar text <;>
        simp [detect_pii, piiConfOfTypes, h, h1, h2]

/-- Witness for C6: empty text yields no signals and confidence 0, and the
specification's example text containing exactly a PAN yields confidence
0.75. -/
theorem c6_pii_confidence_witness :
    detect_pii "" = ([], 0)
    ∧ detect_pii "ABCDE1234F" = (["PAN_DETECTED"], 75/100) :=
  ⟨(c6_pii_confidence "").2.2.1 rfl, rfl⟩

/-! ## Claim C7 — ELA threshold and confidence algebra -/

/-- Decodable bytes whose ELA difference extremum is 200. -/
def cxElaBytes : FileBytes :=
  { rawData := "jfif data", imageOk := true, infoValues := [],
    exifPresent := false, exifOk := false, exifSoftware := "",
    elaOk := true, elaMaxDiff := 200, phashVal := "aa00" }

/-- Claim C7: when the ELA decode succeeds, a pixel-tamper signal is emitted
exactly when the maximal difference exceeds 30, with confidence
`min(0.96, 0.70 + (maxDiff/255) * 0.26)`; that confidence is monotone
non-decreasing, bounded in [0.70, 0.96], about 0.731 at 30, and exactly 0.96
at 255. -/
theorem c7_ela_confidence (b : FileBytes) (d1 d2 : ℕ) :
    (b.elaOk = true → ((detect_ela b).isSome ↔ 30 < b.elaMaxDiff))
    ∧ (b.elaOk = true → 30 < b.elaMaxDiff →
        detect_ela b = some (elaMsg, elaConfidence b.elaMaxDiff))
    ∧ (d1 ≤ d2 → elaConfidence d1 ≤ elaConfidence d2)
    ∧ 70/100 ≤ elaConfidence d1 ∧ elaConfidence d1 ≤ 96/100
    ∧ |elaConfidence 30 - 731/1000| < 1/1000
    ∧ elaConfidence 255 = 96/100 := by
  refine ⟨?_, ?_, ?_, ?_, ?_, ?_, ?_⟩
  · intro h
    by_cases h2 : 30 < b.elaMaxDiff <;> simp [detect_ela, h, h2]
  · intro h h2; simp [detect_ela, h, h2]
  · intro h
    unfold elaConfidence
    gcongr
  · unfold elaConfidence
    refine le_min (by norm_num) ?_
    have hx : (0 : ℚ) ≤ ((d1 : ℚ) / 255) * (26/100) := by positivity
    linarith
  · exact min_le_left _ _
  · have h30 : elaConfidence 30 = 621/850 := by norm_num [elaConfidence, min_def]
    rw [h30, abs_lt]
    constructor <;> norm_num
  · norm_num [elaConfidence, min_def]

/-- Witness for C7: at maximal difference 200 the signal carries the formula
confidence, and the confidence at 30 is below the one at 200. -/
theorem c7_ela_confidence_witness :
    detect_ela cxElaBytes = some (elaMsg, elaConfidence 200)
    ∧ elaConfidence 30 ≤ elaConfidence 200 :=
  ⟨(c7_ela_confidence cxElaBytes 30 200).2.1 rfl (by decide),
    (c7_ela_confidence cxElaBytes 30 200).2.2.1 (by decide)⟩

/-! ## Claim C8 — fail-open totality on empty and malformed input -/

/-- Claim C8: every core detector is total and the empty input (no text,
empty bytes) yields a verdict with empty signal list, score 0, severity SAFE
and confidence 0; bytes on which every decode fails never yield a tamper
signal, so a malformed input at worst yields that SAFE verdict. -/
theorem c8_fail_open_empty :
    detect_pii "" = ([], 0)
    ∧ (∀ avail, detect_tampering emptyTamperInput avail = none)
    ∧ analyze_metadata emptyMetaInput "" = none
    ∧ get_image_phash emptyScanBytes = ""
    ∧ (∀ ds pc, aggregate none none false ds [] pc
        = { fraud_score := 0, severity := "SAFE", anomalies := [], confidence := 0 })
    ∧ (∀ (fn : String) (b : FileBytes) (avail : Bool),
        b.imageOk = false → b.elaOk = false →
        detect_tampering ⟨fn, b, none⟩ avail = none) := by
  refine ⟨rfl, ?_, rfl, rfl, ?_, ?_⟩
  · intro avail; cases avail <;> rfl
  · intro ds pc; rfl
  · intro fn b avail h1 h2
    by_cases hp : (isPdfName fn && avail) = true <;>
      simp [detect_tampering, hp, tamperOnBytes, tamperChecks123, detect_ela, h1, h2]

/-- Witness for C8: the malformed-bytes conjunct at the empty upload. -/
theorem c8_fail_open_empty_witness :
    detect_tampering ⟨"empty.bin", emptyScanBytes, none⟩ true = none :=
  c8_fail_open_empty.2.2.2.2.2 "empty.bin" emptyScanBytes true rfl rfl

/-! ## Claim C9 — fingerprint contract -/

/-- Counterexample to claim C9 as stated: on a PDF upload whose rasterization
would succeed, the claimed rasterize-first fingerprint returns the raster's
hash, but the source's `get_image_phash` never rasterizes and returns the
empty string. -/
theorem c9_counterexample :
    get_image_phash cxPdfUpload.bytes = ""
    ∧ isPdfName cxPdfUpload.filename = true
    ∧ cxPdfUpload.raster = some cxRasterBytes
    ∧ get_image_phash_asSpecified cxPdfUpload = "8f3c1a2b4d5e6f70"
    ∧ get_image_phash cxPdfUpload.bytes ≠ get_image_phash_asSpecified cxPdfUpload := by
  refine ⟨rfl, by decide, rfl, rfl, by decide⟩

/-- Amended claim C9: the fingerprint operation decodes the raw bytes
directly as an image (with no document rasterization) and returns its
perceptual hash; whenever decoding fails — document containers included — it
returns the empty string and never raises. -/
theorem c9_phash_contract (b : FileBytes) :
    (b.imageOk = false → get_image_phash b = "")
    ∧ (b.imageOk = true → get_image_phash b = b.phashVal) := by
  constructor <;> intro h <;> simp [get_image_phash, h]

/-- Witness for the amended C9 at concrete decodable and undecodable
bytes. -/
theorem c9_phash_contract_witness :
    get_image_phash cxPdfBytes = ""
    ∧ get_image_phash cxRasterBytes = "8f3c1a2b4d5e6f70" :=
  ⟨(c9_phash_contract cxPdfBytes).1 rfl, (c9_phash_contract cxRasterBytes).2 rfl⟩

end VeriFi
